import Mathlib

/-!
Verification model of the animation sequencing engine of
`src/components/NodeGraph.tsx` (the `runAnimation` callback, the
`handleDeleteNode` callback and the data they operate on).

Modelling conventions:
* JS numbers are modelled as exact rationals (`ℚ`); the one place where the
  spec's numeric constant depends on IEEE-754 double rounding (the frame count
  `floor(500 / (1000/60)) = 29`) is additionally modelled by an explicit
  correctly-rounded double model (`floatRound`, `fpDiv`, `totalFramesFP`).
* A JS object `Record<string, number>` is an association list with distinct
  keys produced by `fromEntries` (first-occurrence key order, last value wins,
  exactly `Object.fromEntries`).
* The `async` run loop is modelled as a function from the graph, the store's
  node states, a fuel bound and an abort request time to the list of timed
  effects (`setJointValues` publishes, flag writes, sleeps, abort-signal
  reads, toast notices) it performs, together with the final loop state.
  Time advances only at `setTimeout` waits, mirroring the JS event loop where
  a run's synchronous segments are atomic and an abort request is only
  observable at an explicit read of `abortController.signal.aborted`.
-/

namespace LeLamp

/-- A joint pose, i.e. a JS `Record<string, number>` mapping joint names to
values, as an association list. -/
abbrev Pose := List (String × ℚ)

/-- `p[k] ?? d` : look a key up in a pose, defaulting to `d` when absent. -/
def lookupD (p : Pose) (k : String) (d : ℚ) : ℚ :=
  ((p.find? (fun q => q.1 == k)).map Prod.snd).getD d

/-- Insert-or-overwrite one key of a JS object. -/
def setKV (m : Pose) (k : String) (v : ℚ) : Pose :=
  if m.any (fun q => q.1 == k) then
    m.map (fun q => if q.1 == k then (k, v) else q)
  else m ++ [(k, v)]

/-- `Object.fromEntries`: later entries overwrite earlier ones, key order is
first occurrence. -/
def fromEntries (l : List (String × ℚ)) : Pose :=
  l.foldl (fun acc q => setKV acc q.1 q.2) []

/-- One `{ name, value }` joint parameter (`JointParameter` in the source). -/
structure JointParameter where
  name : String
  value : ℚ
deriving Repr, DecidableEq

/-- `TransitionOptions`: `{ smooth: bool, smoothness: number }`. -/
structure TransitionOptions where
  smooth : Bool
  smoothness : ℚ
deriving Repr, DecidableEq

/-- A per-node saved state in the joint store: `{ id, type, joints?,
transition? }`. `type` is the node-kind tag string (`"joint"` or
`"transition"`), other strings behave like the TS code does with an
unrecognised tag (neither branch fires). -/
structure NodeState where
  id : String
  type : String
  joints : Option (List JointParameter) := none
  transition : Option TransitionOptions := none
deriving Repr, DecidableEq

/-- A graph-editor node; only its id matters to the sequencer. -/
structure FlowNode where
  id : String
deriving Repr, DecidableEq

/-- A graph-editor edge `{ id, source, target }`. -/
structure FlowEdge where
  id : String
  source : String
  target : String
deriving Repr, DecidableEq

/-- `Object.fromEntries(joints.map((j) => [j.name, j.value]))`. -/
def poseOfJoints (js : List JointParameter) : Pose :=
  fromEntries (js.map (fun j => (j.name, j.value)))

/-! ### Interpolation arithmetic (NodeGraph.tsx lines 352–387) -/

/-- `minDuration = 500` (0.5 seconds). -/
def minDuration : ℚ := 500

/-- `maxDuration = 5000` (5 seconds). -/
def maxDuration : ℚ := 5000

/-- `durationMs = maxDuration - (smoothness / 100) * (maxDuration - minDuration)`. -/
def durationMs (smoothness : ℚ) : ℚ :=
  maxDuration - smoothness / 100 * (maxDuration - minDuration)

/-- `frameTime = 1000 / frameRate` with `frameRate = 60`, as an exact rational. -/
def frameTime : ℚ := 1000 / 60

/-- `totalFrames = Math.floor(durationMs / frameTime)`, in exact rational
arithmetic (see `totalFramesFP` for the IEEE-double version). -/
def totalFramesZ (smoothness : ℚ) : ℤ :=
  ⌊durationMs smoothness / frameTime⌋

/-- Ease-in-out quadratic:
`t < 0.5 ? 2*t*t : 1 - Math.pow(-2*t+2, 2)/2`. -/
def easeInOutQuad (t : ℚ) : ℚ :=
  if t < 1/2 then 2 * t * t else 1 - (-2 * t + 2) ^ 2 / 2

/-- Append an element to an accumulator unless already present (one step of
building a JS `Set` in insertion order). -/
def addUnique (acc : List String) (x : String) : List String :=
  if acc.contains x then acc else acc ++ [x]

/-- `new Set([...Object.keys(prev), ...Object.keys(next)])` in JS insertion
order: keys of `prev` first, then new keys of `next`, duplicates dropped. -/
def allJointNames (P N : Pose) : List String :=
  (P.map Prod.fst ++ N.map Prod.fst).foldl addUnique []

/-- The pose published at interpolation frame `frame` of `totalFrames`:
`t = frame / totalFrames`, and for each joint name in the union,
`start + (end - start) * easedT` with missing names defaulting to 0
(`previousJointPose[jointName] ?? 0`, `nextJointPose[jointName] ?? 0`). -/
def interpolatedPose (P N : Pose) (frame totalFrames : ℤ) : Pose :=
  let t : ℚ := (frame : ℚ) / (totalFrames : ℚ)
  let easedT := easeInOutQuad t
  (allJointNames P N).map (fun jointName =>
    (jointName,
      lookupD P jointName 0 + (lookupD N jointName 0 - lookupD P jointName 0) * easedT))

/-! ### IEEE-754 double model of the frame-count computation

The spec's frame count for smoothness 100 (`floor(500 / (1000/60)) = 29`)
depends on JS computing `1000/60` and the subsequent division in binary64:
`1000/60` rounds up to a value slightly above `50/3`, and `500` divided by it
rounds down to `29.999999999999996`, whose floor is 29 (the exact rational
value would be 30). The following is a correct round-to-nearest, ties-to-even
model of binary64 rounding for positive values `1 ≤ q < 2^53`, which covers
both divisions involved. -/

/-- Round a rational to the nearest integer, ties to even. -/
def roundHalfEven (q : ℚ) : ℤ :=
  if q - (⌊q⌋ : ℚ) < 1/2 then ⌊q⌋
  else if 1/2 < q - (⌊q⌋ : ℚ) then ⌊q⌋ + 1
  else if ⌊q⌋ % 2 = 0 then ⌊q⌋ else ⌊q⌋ + 1

/-- Fuel-driven base-2 logarithm on naturals (structural recursion so that it
evaluates): `log2Fuel fuel n = ⌊log₂ n⌋` whenever `fuel ≥ n ≥ 1`. -/
def log2Fuel : ℕ → ℕ → ℕ
  | 0, _ => 0
  | fuel + 1, n => if n < 2 then 0 else log2Fuel fuel (n / 2) + 1

/-- `⌊log₂ n⌋` for `n ≥ 1` (0 at 0). -/
def natLog2 (n : ℕ) : ℕ := log2Fuel n n

/-- Round a positive rational `1 ≤ q` to the nearest IEEE-754 binary64 value
(53-bit significand, round-half-even). Values below 1 are returned unchanged;
the model is only used in the binades of `1000/60` and `500/(1000/60)`. -/
def floatRound (q : ℚ) : ℚ :=
  if q < 1 then q
  else
    ((roundHalfEven (q * 2 ^ (52 - natLog2 ⌊q⌋.toNat)) : ℚ)) /
      2 ^ (52 - natLog2 ⌊q⌋.toNat)

/-- Correctly rounded binary64 division, i.e. what the JS `/` operator
produces on doubles in the range used here. -/
def fpDiv (x y : ℚ) : ℚ := floatRound (x / y)

/-- `frameRate = 60`. -/
def frameRate : ℚ := 60

/-- `frameTime = 1000 / frameRate` as JS actually computes it, in binary64. -/
def frameTimeFP : ℚ := fpDiv 1000 frameRate

/-- `Math.floor(durationMs / frameTime)` as JS actually computes it: the
division is binary64 division by the binary64 value of `1000/60`. -/
def totalFramesFP (smoothness : ℚ) : ℤ :=
  ⌊fpDiv (durationMs smoothness) frameTimeFP⌋

/-! ### The shared joint-state store

The store itself (`useJointStore`) is not among the provided sources; only its
operations' call sites in `NodeGraph.tsx` are. Its observable state and setter
semantics are modelled from the spec (§4.1). -/

/-- Modelled from the spec: the shared joint store's observable state — the
current joint values, the global `isAnimating` flag and the `activeNodeId`
highlight (the per-node saved states, which a run only reads, live in
`RunEnv.nodeStates`). -/
structure JointStore where
  jointValues : Pose
  isAnimating : Bool
  activeNodeId : Option String
deriving Repr, DecidableEq

/-- Modelled from the spec: `setJointValues(pose)` merges `pose` into the
current values; keys not present in `pose` are left unchanged. -/
def setJointValues (s : JointStore) (pose : Pose) : JointStore :=
  { s with jointValues := pose.foldl (fun acc q => setKV acc q.1 q.2) s.jointValues }

/-! ### The run loop as a timed effect trace (NodeGraph.tsx lines 289–416)

`runAnimation` is an `async` closure. We model one invocation as the list of
timed effects it performs. Each effect carries the absolute time (in ms,
accumulated from the `setTimeout` waits) of the synchronous segment that
performs it. Reads of `abortController.signal.aborted` are recorded as
`checkSignal` events; an abort request at time `T` (the caller invoking the
cancellation handle) is visible to a read at time `t` iff `T ≤ t`, mirroring
the JS event loop in which a synchronous segment is atomic. -/

/-- One observable effect of a playback run. -/
inductive REvent
  /-- A `setStoreJointValues(pose)` publish. -/
  | publish (pose : Pose)
  /-- A `setActiveNodeId(id)` store write. -/
  | setActive (id : Option String)
  /-- A `setIsAnimating(b)` store write. -/
  | setAnim (b : Bool)
  /-- An `await new Promise((resolve) => setTimeout(resolve, ms))` wait. -/
  | sleep (ms : ℚ)
  /-- A read of `abortController.signal.aborted`, with the value read. -/
  | checkSignal (aborted : Bool)
  /-- A `toast.error(msg)` user-visible notice. -/
  | toastError (msg : String)
  /-- `setAnimationAbortController(null)`: the cancellation handle released. -/
  | releaseController
deriving Repr, DecidableEq

/-- The environment a run reads: the graph, the store's per-node states, the
time at which the caller requests cancellation (`none` = never), and an
optional loop-iteration index at which an unexpected fault is thrown
(modelling "a collaborator throwing" mid-loop, caught by the `try/catch`). -/
structure RunEnv where
  nodes : List FlowNode
  edges : List FlowEdge
  nodeStates : List (String × NodeState)
  abortTime : Option ℚ := none
  faultIter : Option ℕ := none

/-- `getNodeState(nodeId)` from the store. -/
def getNodeState (env : RunEnv) (nodeId : String) : Option NodeState :=
  (env.nodeStates.find? (fun p => p.1 == nodeId)).map Prod.snd

/-- The value read from `abortController.signal.aborted` at absolute time
`now`, when the caller requests cancellation at `abortTime`. -/
def signalAborted (abortTime : Option ℚ) (now : ℚ) : Bool :=
  match abortTime with
  | none => false
  | some T => decide (T ≤ now)

/-- The local mutable state of the run loop. -/
structure LoopState where
  currentNodeId : String
  previousJointPose : Option Pose
  skipNextJointApplication : Bool
  now : ℚ
  iter : ℕ
deriving Repr, DecidableEq

/-- How the run loop stopped. -/
inductive LoopExit
  /-- `currentNodeId` became empty: end of the chain. -/
  | endOfChain
  /-- The loop-top read of the abort signal returned true. -/
  | abortedExit
  /-- `!currentNode || !nodeState`: `break`. -/
  | missingNode
  /-- The injected unexpected fault was thrown. -/
  | faulted
  /-- Model artifact: fuel ran out while the loop was still running. -/
  | outOfFuel
deriving Repr, DecidableEq

/-- `edges.find((edge) => edge.source === currentNodeId)`, then
`nextEdge ? nextEdge.target : ""`. -/
def nextNodeId (env : RunEnv) (nodeId : String) : String :=
  match env.edges.find? (fun e => e.source == nodeId) with
  | some e => e.target
  | none => ""

/-- The pose of the joint node this transition node points at, if any
(NodeGraph.tsx lines 339–350). -/
def nextJointPoseOf (env : RunEnv) (nodeId : String) : Option Pose :=
  match env.edges.find? (fun e => e.source == nodeId) with
  | some e =>
    match getNodeState env e.target with
    | some ns2 =>
      if ns2.type = "joint" ∧ ns2.joints.isSome = true then
        some (poseOfJoints (ns2.joints.getD []))
      else none
    | none => none
  | none => none

/-- The interpolation frame loop (NodeGraph.tsx lines 370–387):
`for (let frame = 0; frame <= totalFrames && !aborted; frame++)`, publishing
`interpolatedPose` then sleeping one `frameTime` per iteration. `count` is a
structural-recursion bound, instantiated with `(totalFrames + 1).toNat` so it
never cuts the loop short. Returns the events and the time after the loop. -/
def interpFrames (abortTime : Option ℚ) (P N : Pose) (totalFrames : ℤ) :
    ℤ → ℚ → ℕ → List (ℚ × REvent) × ℚ
  | _, now, 0 => ([], now)
  | frame, now, count + 1 =>
    if totalFrames < frame then ([], now)
    else if signalAborted abortTime now then ([(now, .checkSignal true)], now)
    else
      let pose := interpolatedPose P N frame totalFrames
      let r := interpFrames abortTime P N totalFrames (frame + 1) (now + frameTime) count
      ((now, .checkSignal false) :: (now, .publish pose) :: (now, .sleep frameTime) :: r.1,
        r.2)

/-- The joint-node branch (NodeGraph.tsx lines 318–335): publish the pose and
settle for 1000 ms, unless `skipNextJointApplication` is set, in which case
clear the flag and hold 100 ms; either way record `previousJointPose`. -/
def stepJoint (st : LoopState) (js : List JointParameter) :
    List (ℚ × REvent) × LoopState :=
  let pose := poseOfJoints js
  if st.skipNextJointApplication = false then
    ([(st.now, .publish pose), (st.now, .sleep 1000)],
      { st with previousJointPose := some pose, now := st.now + 1000 })
  else
    ([(st.now, .sleep 100)],
      { st with skipNextJointApplication := false, previousJointPose := some pose,
                now := st.now + 100 })

/-- The transition-node branch (NodeGraph.tsx lines 336–396): run the
interpolation when `smooth` and both poses exist (then set
`skipNextJointApplication`), otherwise pause 500 ms. -/
def stepTransition (env : RunEnv) (st : LoopState) (trans : TransitionOptions) :
    List (ℚ × REvent) × LoopState :=
  match trans.smooth, st.previousJointPose, nextJointPoseOf env st.currentNodeId with
  | true, some P, some N =>
    let totalFrames : ℤ := totalFramesZ trans.smoothness
    let r := interpFrames env.abortTime P N totalFrames 0 st.now (totalFrames + 1).toNat
    (r.1, { st with skipNextJointApplication := true, now := r.2 })
  | _, _, _ =>
    ([(st.now, .sleep 500)], { st with now := st.now + 500 })

/-- One loop body after the `activeNodeId` write: dispatch on the node state's
type tag exactly as the `if/else if` chain does (an unrecognised state falls
through with no effect). -/
def stepBody (env : RunEnv) (st : LoopState) (ns : NodeState) :
    List (ℚ × REvent) × LoopState :=
  if ns.type = "joint" ∧ ns.joints.isSome = true then
    stepJoint st (ns.joints.getD [])
  else if ns.type = "transition" ∧ ns.transition.isSome = true then
    stepTransition env st (ns.transition.getD ⟨false, 0⟩)
  else ([], st)

/-- The `while (currentNodeId && !abortController.signal.aborted)` loop
(NodeGraph.tsx lines 311–401), with a fuel bound: the JS loop need not
terminate (a lasso-shaped graph loops forever), so fuel exhaustion is reported
as `LoopExit.outOfFuel`. Returns the events performed, the final loop state
and how the loop stopped. -/
def runLoop (env : RunEnv) : ℕ → LoopState → List (ℚ × REvent) × LoopState × LoopExit
  | 0, st => ([], st, .outOfFuel)
  | fuel + 1, st =>
    if st.currentNodeId = "" then ([], st, .endOfChain)
    else if signalAborted env.abortTime st.now then
      ([(st.now, .checkSignal true)], st, .abortedExit)
    else if env.faultIter = some st.iter then
      ([(st.now, .checkSignal false)], st, .faulted)
    else
      match env.nodes.find? (fun n => n.id == st.currentNodeId),
            getNodeState env st.currentNodeId with
      | some _, some ns =>
        let step := stepBody env st ns
        let st2 := { step.2 with currentNodeId := nextNodeId env st.currentNodeId,
                                 iter := st.iter + 1 }
        let r := runLoop env fuel st2
        ((st.now, .checkSignal false) :: (st.now, .setActive (some st.currentNodeId)) ::
           (step.1 ++ r.1), r.2)
      | _, _ =>
        ([(st.now, .checkSignal false), (st.now, .setActive (some st.currentNodeId))],
          st, .missingNode)

/-- The `catch`/`finally` effects of the run boundary (NodeGraph.tsx lines
402–409): the generic failure notice on an unexpected fault, then always
`setIsAnimating(false)`, `setActiveNodeId(null)` and the release of the
cancellation handle. -/
def finishEvents (stF : LoopState) (ex : LoopExit) : List (ℚ × REvent) :=
  (match ex with
   | .faulted => [(stF.now, .toastError "Animation encountered an error")]
   | _ => []) ++
  [(stF.now, .setAnim false), (stF.now, .setActive none), (stF.now, .releaseController)]

/-- How one invocation of `runAnimation` ended. -/
inductive RunOutcome
  /-- `if (isAnimating) return;`: caller-side re-entry guard. -/
  | alreadyAnimating
  /-- No start node: the notice was shown and nothing else happened. -/
  | noStartNode
  /-- A run started and its loop stopped with the given exit. -/
  | ran (ex : LoopExit)
deriving Repr, DecidableEq

/-- The result of one `runAnimation()` invocation. -/
structure RunResult where
  events : List (ℚ × REvent)
  createdController : Bool
  finalLoopState : Option LoopState
  outcome : RunOutcome
deriving Repr, DecidableEq

/-- `startNodes = nodes.filter((node) => !edges.some((edge) => edge.target === node.id))`. -/
def startNodes (env : RunEnv) : List FlowNode :=
  env.nodes.filter (fun node => !(env.edges.any (fun edge => edge.target == node.id)))

/-- The notice shown when no start node exists. -/
def noStartMsg : String := "No starting node found. Add a node without incoming connections."

/-- One invocation of `runAnimation` (NodeGraph.tsx lines 289–410) against an
initial store `s0`, as a timed effect trace. When the loop exhausts its fuel
the run is still in flight: the `finally` block has not run yet, so no cleanup
events are appended and no final loop state is reported. -/
def runAnimation (env : RunEnv) (s0 : JointStore) (fuel : ℕ) : RunResult :=
  if s0.isAnimating then ⟨[], false, none, .alreadyAnimating⟩
  else
    match startNodes env with
    | [] => ⟨[(0, .toastError noStartMsg)], false, none, .noStartNode⟩
    | start :: _ =>
      let r := runLoop env fuel ⟨start.id, none, false, 0, 0⟩
      if r.2.2 = LoopExit.outOfFuel then
        ⟨(0, .setAnim true) :: r.1, true, none, .ran r.2.2⟩
      else
        ⟨(0, .setAnim true) :: (r.1 ++ finishEvents r.2.1 r.2.2), true, some r.2.1,
          .ran r.2.2⟩

/-- Modelled from the spec: the store state after one effect. `publish` merges
into the joint values, `setActive`/`setAnim` overwrite their flag; waits,
signal reads, notices and the handle release do not touch the store. -/
def applyEvent (s : JointStore) (ev : REvent) : JointStore :=
  match ev with
  | .publish pose => setJointValues s pose
  | .setActive i => { s with activeNodeId := i }
  | .setAnim b => { s with isAnimating := b }
  | _ => s

/-- The store after a whole effect trace. -/
def runStore (s0 : JointStore) (evs : List (ℚ × REvent)) : JointStore :=
  evs.foldl (fun s te => applyEvent s te.2) s0

/-- Every store state a subscriber can observe along a trace (the initial
state and the state after each effect). -/
def storeStates (s0 : JointStore) (evs : List (ℚ × REvent)) : List JointStore :=
  evs.scanl (fun s te => applyEvent s te.2) s0

/-! ### Node deletion (NodeGraph.tsx lines 117–123) -/

/-- `handleDeleteNode`: drop the node and every edge whose source or target is
the deleted node. -/
def handleDeleteNode (nodes : List FlowNode) (edges : List FlowEdge)
    (nodeId : String) : List FlowNode × List FlowEdge :=
  (nodes.filter (fun node => !(node.id == nodeId)),
   edges.filter (fun edge => !(edge.source == nodeId) && !(edge.target == nodeId)))

/-! ### Event classifiers and counters -/

/-- Is this event a `setJointValues` publish? -/
def isPublishEv : REvent → Bool
  | .publish _ => true
  | _ => false

/-- Is this event a read of the abort signal? -/
def isCheckEv : REvent → Bool
  | .checkSignal _ => true
  | _ => false

/-- Is this event `setIsAnimating(false)`? -/
def isSetAnimFalse : REvent → Bool
  | .setAnim false => true
  | _ => false

/-- Is this event `setActiveNodeId(null)`? -/
def isSetActiveNone : REvent → Bool
  | .setActive none => true
  | _ => false

/-- Is this event the release of the cancellation handle? -/
def isReleaseEv : REvent → Bool
  | .releaseController => true
  | _ => false

/-- The events the loop body itself can perform: signal reads, publishes,
waits and `setActiveNodeId` with a non-null id — never a cleanup event. -/
def loopEv : REvent → Bool
  | .checkSignal _ => true
  | .publish _ => true
  | .sleep _ => true
  | .setActive (some _) => true
  | _ => false

/-- How many events of a trace satisfy `p`. -/
def countEv (p : REvent → Bool) (evs : List (ℚ × REvent)) : ℕ :=
  (evs.filter (fun te => p te.2)).length

/-! ### Concrete scenarios used by counterexamples and witnesses -/

/-- An initial store: no run in flight. -/
def demoStore : JointStore := ⟨[], false, none⟩

/-- Saved state of a joint node `A` with one joint at 0. -/
def jsA : NodeState := { id := "A", type := "joint", joints := some [⟨"j", 0⟩] }

/-- Saved state of a joint node `B` with one joint at 1. -/
def jsB : NodeState := { id := "B", type := "joint", joints := some [⟨"j", 1⟩] }

/-- A single joint node `A`, never cancelled. -/
def c2Env : RunEnv := { nodes := [⟨"A"⟩], edges := [], nodeStates := [("A", jsA)] }

/-- Chain `A → B` of two joint nodes, with cancellation requested at t = 1 ms,
i.e. 1 ms into the 1000 ms settle pause that follows the publish of `A`'s
pose at t = 0. -/
def c1Env : RunEnv :=
  { nodes := [⟨"A"⟩, ⟨"B"⟩], edges := [⟨"e1", "A", "B"⟩],
    nodeStates := [("A", jsA), ("B", jsB)], abortTime := some 1 }

/-- A graph whose only node has an incoming (self-loop) edge: no start node. -/
def c6Env : RunEnv := { nodes := [⟨"A"⟩], edges := [⟨"e", "A", "A"⟩], nodeStates := [] }

/-- Transition node `T` pointing at joint node `B`, for the skip-flag witness. -/
def c8Env : RunEnv :=
  { nodes := [⟨"T"⟩, ⟨"B"⟩], edges := [⟨"e", "T", "B"⟩], nodeStates := [("B", jsB)] }

/-- A loop state sitting at node `T` with the skip flag set and a previous
pose recorded. -/
def c8St : LoopState := ⟨"T", some [("j", 0)], true, 0, 0⟩

/-- Nodes for the deletion witness. -/
def c9Nodes : List FlowNode := [⟨"A"⟩, ⟨"B"⟩]

/-- Edges for the deletion witness. -/
def c9Edges : List FlowEdge := [⟨"e1", "A", "B"⟩, ⟨"e2", "B", "A"⟩]

/-- A previous pose for the interpolation-endpoint witness. -/
def c3P : Pose := [("a", 10), ("b", 20)]

/-- A next pose for the interpolation-endpoint witness. -/
def c3N : Pose := [("b", 40), ("c", 50)]

/-! ## Theorems -/

/-- Helper: for any smoothness at most 100 the exact-arithmetic frame count
is at least 30. -/
theorem totalFramesZ_ge (s : ℚ) (h1 : s ≤ 100) : 30 ≤ totalFramesZ s := by
  have hd : (500 : ℚ) ≤ durationMs s := by
    simp only [durationMs, maxDuration, minDuration]
    nlinarith
  have h : (30 : ℚ) ≤ durationMs s / frameTime := by
    rw [frameTime, le_div_iff₀ (by norm_num : (0 : ℚ) < 1000 / 60)]
    linarith
  exact Int.le_floor.mpr (by exact_mod_cast h)

/-- C4: the smooth-transition duration is `d(s) = 5000 − (s/100)·4500` ms,
with `d(0) = 5000`, `d(100) = 500`, and `d` monotonically non-increasing. -/
theorem c4 :
    (∀ s : ℚ, durationMs s = 5000 - s / 100 * 4500) ∧
    durationMs 0 = 5000 ∧ durationMs 100 = 500 ∧
    ∀ s1 s2 : ℚ, s1 ≤ s2 → durationMs s2 ≤ durationMs s1 := by
  refine ⟨fun s => by norm_num [durationMs, maxDuration, minDuration],
    by norm_num [durationMs, maxDuration, minDuration],
    by norm_num [durationMs, maxDuration, minDuration],
    fun s1 s2 h => ?_⟩
  simp only [durationMs, maxDuration, minDuration]
  nlinarith

/-- Witness for C4's monotonicity hypothesis at `3 ≤ 7`. -/
theorem c4_witness : durationMs 7 ≤ durationMs 3 := c4.2.2.2 3 7 (by norm_num)

/-- C10: for smoothness in [0,100] the frame count is at least 1 (indeed at
least 29), so `t = frame / totalFrames` never divides by zero. -/
theorem c10 (s : ℚ) (_h0 : 0 ≤ s) (h1 : s ≤ 100) :
    1 ≤ totalFramesZ s ∧ 29 ≤ totalFramesZ s ∧ ((totalFramesZ s : ℚ) ≠ 0) := by
  have h := totalFramesZ_ge s h1
  refine ⟨by omega, by omega, ?_⟩
  have h2 : totalFramesZ s ≠ 0 := by omega
  exact_mod_cast h2

/-- Witness for C10 at smoothness 50. -/
theorem c10_witness :
    1 ≤ totalFramesZ 50 ∧ 29 ≤ totalFramesZ 50 ∧ ((totalFramesZ 50 : ℚ) ≠ 0) :=
  c10 50 (by norm_num) (by norm_num)

/-- C3: frame 0 of a smooth transition publishes exactly the previous pose
over the union of joint names (missing names default to 0) and the last frame
publishes exactly the next pose. -/
theorem c3 (P N : Pose) (s : ℚ) (_h0 : 0 ≤ s) (h1 : s ≤ 100) :
    interpolatedPose P N 0 (totalFramesZ s) =
      (allJointNames P N).map (fun nm => (nm, lookupD P nm 0)) ∧
    interpolatedPose P N (totalFramesZ s) (totalFramesZ s) =
      (allJointNames P N).map (fun nm => (nm, lookupD N nm 0)) := by
  have h30 := totalFramesZ_ge s h1
  have hne : ((totalFramesZ s : ℤ) : ℚ) ≠ 0 := by
    have h2 : totalFramesZ s ≠ 0 := by omega
    exact_mod_cast h2
  constructor
  · simp only [interpolatedPose, Int.cast_zero, zero_div]
    norm_num [easeInOutQuad]
  · simp only [interpolatedPose, div_self hne]
    rw [show easeInOutQuad 1 = 1 from by norm_num [easeInOutQuad]]
    refine List.map_congr_left fun nm _ => ?_
    rw [Prod.mk.injEq]
    exact ⟨rfl, by ring⟩

/-- Witness for C3 at two concrete poses and smoothness 50. -/
theorem c3_witness :
    interpolatedPose c3P c3N 0 (totalFramesZ 50) =
      (allJointNames c3P c3N).map (fun nm => (nm, lookupD c3P nm 0)) ∧
    interpolatedPose c3P c3N (totalFramesZ 50) (totalFramesZ 50) =
      (allJointNames c3P c3N).map (fun nm => (nm, lookupD c3N nm 0)) :=
  c3 c3P c3N 50 (by norm_num) (by norm_num)

/-- C5: the frame count is `floor(durationMs / frameTime)` as computed in
binary64 (the only arithmetic the code performs), and at smoothness 100 it is
29: binary64 `1000/60` rounds up, so the quotient `500 / (1000/60)` rounds
down to just below 30 and the floor is 29 (the exact value would be 30). -/
theorem c5 :
    (∀ s : ℚ, totalFramesFP s = ⌊fpDiv (durationMs s) frameTimeFP⌋) ∧
    totalFramesFP 100 = 29 := by
  refine ⟨fun s => rfl, ?_⟩
  have hft : frameTimeFP = 4691249611844267 / 2 ^ 48 := by
    rw [frameTimeFP, fpDiv, frameRate, floatRound,
      if_neg (by norm_num : ¬ ((1000 : ℚ) / 60 < 1)),
      show (⌊(1000 : ℚ) / 60⌋).toNat = 16 from by
        rw [show ⌊(1000 : ℚ) / 60⌋ = 16 from by norm_num]; rfl,
      show natLog2 16 = 4 from by norm_num [natLog2, log2Fuel],
      roundHalfEven,
      show ⌊(1000 : ℚ) / 60 * 2 ^ (52 - 4)⌋ = 4691249611844266 from by norm_num]
    norm_num
  have hdur : durationMs 100 = 500 := by norm_num [durationMs, maxDuration, minDuration]
  rw [totalFramesFP, hdur, hft, fpDiv,
    show (500 : ℚ) / (4691249611844267 / 2 ^ 48)
        = 140737488355328000 / 4691249611844267 from by norm_num,
    floatRound,
    if_neg (by norm_num : ¬ ((140737488355328000 : ℚ) / 4691249611844267 < 1)),
    show (⌊(140737488355328000 : ℚ) / 4691249611844267⌋).toNat = 29 from by
      rw [show ⌊(140737488355328000 : ℚ) / 4691249611844267⌋ = 29 from by norm_num]; rfl,
    show natLog2 29 = 4 from by norm_num [natLog2, log2Fuel],
    roundHalfEven,
    show ⌊(140737488355328000 : ℚ) / 4691249611844267 * 2 ^ (52 - 4)⌋
        = 8444249301319679 from by norm_num]
  norm_num



/-- C9: deleting a node removes every edge whose source or target is that
node, and (given the graph had no dangling edges) leaves no edge referencing
a node that no longer exists. -/
theorem c9 (nodes : List FlowNode) (edges : List FlowEdge) (nodeId : String)
    (hclean : ∀ e ∈ edges,
      (∃ n ∈ nodes, n.id = e.source) ∧ (∃ n ∈ nodes, n.id = e.target)) :
    (∀ e ∈ (handleDeleteNode nodes edges nodeId).2,
        e.source ≠ nodeId ∧ e.target ≠ nodeId) ∧
    (∀ e ∈ (handleDeleteNode nodes edges nodeId).2,
        (∃ n ∈ (handleDeleteNode nodes edges nodeId).1, n.id = e.source) ∧
        (∃ n ∈ (handleDeleteNode nodes edges nodeId).1, n.id = e.target)) := by
  have hmem : ∀ e ∈ (handleDeleteNode nodes edges nodeId).2,
      e ∈ edges ∧ e.source ≠ nodeId ∧ e.target ≠ nodeId := by
    intro e he
    simp only [handleDeleteNode, List.mem_filter, Bool.and_eq_true, Bool.not_eq_true',
      beq_eq_false_iff_ne, ne_eq] at he
    exact ⟨he.1, he.2.1, he.2.2⟩
  constructor
  · intro e he
    exact (hmem e he).2
  · intro e he
    obtain ⟨hin, hs, ht⟩ := hmem e he
    obtain ⟨⟨n1, hn1, h1⟩, ⟨n2, hn2, h2⟩⟩ := hclean e hin
    constructor
    · refine ⟨n1, ?_, h1⟩
      simp only [handleDeleteNode, List.mem_filter, Bool.not_eq_true', beq_eq_false_iff_ne, ne_eq]
      exact ⟨hn1, by rw [h1]; exact hs⟩
    · refine ⟨n2, ?_, h2⟩
      simp only [handleDeleteNode, List.mem_filter, Bool.not_eq_true', beq_eq_false_iff_ne, ne_eq]
      exact ⟨hn2, by rw [h2]; exact ht⟩

/-- Witness for C9: delete node `B` from the two-node cycle. -/
theorem c9_witness :
    (∀ e ∈ (handleDeleteNode c9Nodes c9Edges "B").2,
        e.source ≠ "B" ∧ e.target ≠ "B") ∧
    (∀ e ∈ (handleDeleteNode c9Nodes c9Edges "B").2,
        (∃ n ∈ (handleDeleteNode c9Nodes c9Edges "B").1, n.id = e.source) ∧
        (∃ n ∈ (handleDeleteNode c9Nodes c9Edges "B").1, n.id = e.target)) :=
  c9 c9Nodes c9Edges "B" (by decide)

/-- C6: on a graph where every node has an incoming edge, a run invocation
reports the no-start-node notice, creates no cancellation handle and leaves
the store untouched. -/
theorem c6 (env : RunEnv) (s0 : JointStore) (fuel : ℕ)
    (h0 : s0.isAnimating = false)
    (hall : ∀ n ∈ env.nodes, ∃ e ∈ env.edges, e.target = n.id) :
    (runAnimation env s0 fuel).outcome = RunOutcome.noStartNode ∧
    (runAnimation env s0 fuel).createdController = false ∧
    (runAnimation env s0 fuel).events = [(0, REvent.toastError noStartMsg)] ∧
    runStore s0 (runAnimation env s0 fuel).events = s0 := by
  have hs : startNodes env = [] := by
    rw [startNodes, List.filter_eq_nil_iff]
    intro n hn
    obtain ⟨e, he, ht⟩ := hall n hn
    simp only [Bool.not_eq_true', Bool.not_eq_false, List.any_eq_true]
    exact ⟨e, he, by simp [ht]⟩
  have h : runAnimation env s0 fuel =
      ⟨[(0, REvent.toastError noStartMsg)], false, none, RunOutcome.noStartNode⟩ := by
    rw [runAnimation, if_neg (by rw [h0]; exact Bool.false_ne_true), hs]
  rw [h]
  refine ⟨rfl, rfl, rfl, ?_⟩
  simp [runStore, applyEvent]

/-- Witness for C6: a single node with a self-loop edge has no start node. -/
theorem c6_witness :
    (runAnimation c6Env demoStore 5).outcome = RunOutcome.noStartNode ∧
    (runAnimation c6Env demoStore 5).createdController = false ∧
    (runAnimation c6Env demoStore 5).events = [(0, REvent.toastError noStartMsg)] ∧
    runStore demoStore (runAnimation c6Env demoStore 5).events = demoStore :=
  c6 c6Env demoStore 5 rfl (by decide)

/-- C8: when the skip flag is set, the pose step publishes nothing, sleeps
100 ms instead of 1000 ms, clears the flag and still records the pose as
`previousJointPose`; and the smooth branch of a transition step is what sets
the flag. -/
theorem c8 (env : RunEnv) (st stT : LoopState) (js : List JointParameter)
    (trans : TransitionOptions) (P N : Pose)
    (hskip : st.skipNextJointApplication = true)
    (hsmooth : trans.smooth = true)
    (hprev : stT.previousJointPose = some P)
    (hnext : nextJointPoseOf env stT.currentNodeId = some N) :
    (stepJoint st js).1 = [(st.now, REvent.sleep 100)] ∧
    (stepJoint st js).2.skipNextJointApplication = false ∧
    (stepJoint st js).2.previousJointPose = some (poseOfJoints js) ∧
    (stepJoint st js).2.now = st.now + 100 ∧
    (stepTransition env stT trans).2.skipNextJointApplication = true := by
  refine ⟨?_, ?_, ?_, ?_, ?_⟩ <;>
    simp [stepJoint, hskip, stepTransition, hsmooth, hprev, hnext]

/-- Witness for C8 at a concrete skip-flagged state and transition node. -/
theorem c8_witness :
    (stepJoint c8St [⟨"j", 1⟩]).1 = [(c8St.now, REvent.sleep 100)] ∧
    (stepJoint c8St [⟨"j", 1⟩]).2.skipNextJointApplication = false ∧
    (stepJoint c8St [⟨"j", 1⟩]).2.previousJointPose = some (poseOfJoints [⟨"j", 1⟩]) ∧
    (stepJoint c8St [⟨"j", 1⟩]).2.now = c8St.now + 100 ∧
    (stepTransition c8Env c8St ⟨true, 50⟩).2.skipNextJointApplication = true :=
  c8 c8Env c8St c8St [⟨"j", 1⟩] ⟨true, 50⟩ [("j", 0)] [("j", 1)] rfl rfl rfl
    (by norm_num [nextJointPoseOf, getNodeState, poseOfJoints, fromEntries, setKV, c8Env, c8St, jsB])



/-- Helper: the `finally` cleanup always leaves the store with
`isAnimating = false` and `activeNodeId = null`, whatever the exit. -/
theorem runStore_finish (s : JointStore) (stF : LoopState) (ex : LoopExit) :
    (runStore s (finishEvents stF ex)).isAnimating = false ∧
    (runStore s (finishEvents stF ex)).activeNodeId = none := by
  cases ex <;> simp [finishEvents, runStore, applyEvent]

/-- C2 counterexample: in a one-node run, some observable store state has
`isAnimating = true` while `activeNodeId` is still null — the instant between
`setIsAnimating(true)` and the first `setActiveNodeId` write (the cleanup
window `isAnimating = false` with `activeNodeId` still set also occurs). -/
theorem c2_counterexample :
    ((storeStates demoStore (runAnimation c2Env demoStore 5).events).any
        (fun s => s.isAnimating && s.activeNodeId.isNone)) = true ∧
    ((storeStates demoStore (runAnimation c2Env demoStore 5).events).any
        (fun s => !s.isAnimating && s.activeNodeId.isSome)) = true := by
  constructor <;>
    norm_num [runAnimation, runLoop, stepBody, stepJoint, startNodes, getNodeState,
      signalAborted, nextNodeId, finishEvents, storeStates, applyEvent, setJointValues,
      poseOfJoints, fromEntries, setKV, c2Env, demoStore, jsA]

/-- C2 amended: the iff between `activeNodeId ≠ null` and `isAnimating` holds
at quiescent points — before a run and after a terminated run's cleanup —
though not at the instants between the paired flag writes. -/
theorem c2_amended (env : RunEnv) (s0 : JointStore) (fuel : ℕ)
    (h0 : s0.activeNodeId ≠ none ↔ s0.isAnimating = true)
    (hnf : (runAnimation env s0 fuel).outcome ≠ RunOutcome.ran LoopExit.outOfFuel) :
    ((runStore s0 (runAnimation env s0 fuel).events).activeNodeId ≠ none ↔
      (runStore s0 (runAnimation env s0 fuel).events).isAnimating = true) := by
  cases hb : s0.isAnimating with
  | true =>
    simp only [runAnimation, hb, if_true]
    simpa [runStore] using h0
  | false =>
    cases hsn : startNodes env with
    | nil =>
      simp only [runAnimation, hb, hsn, Bool.false_eq_true, if_false]
      simpa [runStore, applyEvent] using h0
    | cons start rest =>
      by_cases hof : (runLoop env fuel ⟨start.id, none, false, 0, 0⟩).2.2 = LoopExit.outOfFuel
      · exfalso
        apply hnf
        simp only [runAnimation, hb, hsn, Bool.false_eq_true, if_false, hof, if_true]
      · simp only [runAnimation, hb, hsn, Bool.false_eq_true, if_false, if_neg hof]
        rw [show ((0 : ℚ), REvent.setAnim true) ::
              ((runLoop env fuel ⟨start.id, none, false, 0, 0⟩).1 ++
                finishEvents (runLoop env fuel ⟨start.id, none, false, 0, 0⟩).2.1
                  (runLoop env fuel ⟨start.id, none, false, 0, 0⟩).2.2)
            = (((0 : ℚ), REvent.setAnim true) ::
                (runLoop env fuel ⟨start.id, none, false, 0, 0⟩).1) ++
                finishEvents (runLoop env fuel ⟨start.id, none, false, 0, 0⟩).2.1
                  (runLoop env fuel ⟨start.id, none, false, 0, 0⟩).2.2
            from rfl]
        rw [show runStore s0
              ((((0 : ℚ), REvent.setAnim true) ::
                  (runLoop env fuel ⟨start.id, none, false, 0, 0⟩).1) ++
                finishEvents (runLoop env fuel ⟨start.id, none, false, 0, 0⟩).2.1
                  (runLoop env fuel ⟨start.id, none, false, 0, 0⟩).2.2)
            = runStore (runStore s0 (((0 : ℚ), REvent.setAnim true) ::
                  (runLoop env fuel ⟨start.id, none, false, 0, 0⟩).1))
                (finishEvents (runLoop env fuel ⟨start.id, none, false, 0, 0⟩).2.1
                  (runLoop env fuel ⟨start.id, none, false, 0, 0⟩).2.2)
            from by rw [runStore, runStore, runStore, List.foldl_append]]
        obtain ⟨ha, hn⟩ := runStore_finish
          (runStore s0 (((0 : ℚ), REvent.setAnim true) ::
            (runLoop env fuel ⟨start.id, none, false, 0, 0⟩).1))
          (runLoop env fuel ⟨start.id, none, false, 0, 0⟩).2.1
          (runLoop env fuel ⟨start.id, none, false, 0, 0⟩).2.2
        rw [ha, hn]
        simp

/-- Witness for C2's amended statement on the one-node run. -/
theorem c2_witness :
    ((runStore demoStore (runAnimation c2Env demoStore 5).events).activeNodeId ≠ none ↔
      (runStore demoStore (runAnimation c2Env demoStore 5).events).isAnimating = true) :=
  c2_amended c2Env demoStore 5 (by simp [demoStore]) (by decide)



/-- Helper: the interpolation frame loop only performs signal reads,
publishes and waits. -/
theorem interpFrames_shape (ab : Option ℚ) (P N : Pose) (tot : ℤ) :
    ∀ (count : ℕ) (frame : ℤ) (now : ℚ),
      ∀ te ∈ (interpFrames ab P N tot frame now count).1, loopEv te.2 = true := by
  intro count
  induction count with
  | zero => intro frame now te hte; simp [interpFrames] at hte
  | succ n ih =>
    intro frame now te hte
    rw [interpFrames] at hte
    split at hte
    · simp at hte
    · split at hte
      · simp only [List.mem_singleton] at hte
        subst hte; rfl
      · simp only [List.mem_cons] at hte
        rcases hte with h | h | h | h
        · subst h; rfl
        · subst h; rfl
        · subst h; rfl
        · exact ih _ _ te h

/-- Helper: the pose branch only publishes and waits. -/
theorem stepJoint_shape (st : LoopState) (js : List JointParameter) :
    ∀ te ∈ (stepJoint st js).1, loopEv te.2 = true := by
  intro te hte
  rw [stepJoint] at hte
  split at hte <;> simp only [List.mem_cons, List.not_mem_nil, or_false] at hte
  · rcases hte with h | h <;> subst h <;> rfl
  · subst hte; rfl

/-- Helper: the transition branch only performs signal reads, publishes and
waits. -/
theorem stepTransition_shape (env : RunEnv) (st : LoopState) (trans : TransitionOptions) :
    ∀ te ∈ (stepTransition env st trans).1, loopEv te.2 = true := by
  intro te hte
  rw [stepTransition] at hte
  split at hte
  · exact interpFrames_shape env.abortTime _ _ _ _ _ _ te hte
  · simp only [List.mem_cons, List.not_mem_nil, or_false] at hte
    subst hte; rfl

/-- Helper: a loop body only performs signal reads, publishes and waits. -/
theorem stepBody_shape (env : RunEnv) (st : LoopState) (ns : NodeState) :
    ∀ te ∈ (stepBody env st ns).1, loopEv te.2 = true := by
  intro te hte
  rw [stepBody] at hte
  split at hte
  · exact stepJoint_shape st _ te hte
  · split at hte
    · exact stepTransition_shape env st _ te hte
    · simp at hte

/-- Helper: the run loop only performs signal reads, publishes, waits and
non-null `setActiveNodeId` writes — never a cleanup event. -/
theorem runLoop_shape (env : RunEnv) :
    ∀ (fuel : ℕ) (st : LoopState), ∀ te ∈ (runLoop env fuel st).1, loopEv te.2 = true := by
  intro fuel
  induction fuel with
  | zero => intro st te hte; simp [runLoop] at hte
  | succ n ih =>
    intro st te hte
    rw [runLoop] at hte
    split at hte
    · simp at hte
    · split at hte
      · simp only [List.mem_singleton] at hte; subst hte; rfl
      · split at hte
        · simp only [List.mem_singleton] at hte; subst hte; rfl
        · split at hte
          · simp only [List.mem_cons] at hte
            rcases hte with h | h | h
            · subst h; rfl
            · subst h; rfl
            · rcases List.mem_append.mp h with h2 | h2
              · exact stepBody_shape env st _ te h2
              · exact ih _ te h2
          · simp only [List.mem_cons, List.not_mem_nil, or_false] at hte
            rcases hte with h | h <;> subst h <;> rfl

/-- Helper: loop-body events are never cleanup events. -/
theorem loopEv_cleanup_false (ev : REvent) (h : loopEv ev = true) :
    isSetAnimFalse ev = false ∧ isSetActiveNone ev = false ∧ isReleaseEv ev = false := by
  cases ev with
  | publish p => exact ⟨rfl, rfl, rfl⟩
  | setActive i =>
    cases i with
    | none => exact absurd h (by simp [loopEv])
    | some s => exact ⟨rfl, rfl, rfl⟩
  | setAnim b => exact absurd h (by simp [loopEv])
  | sleep ms => exact ⟨rfl, rfl, rfl⟩
  | checkSignal b => exact ⟨rfl, rfl, rfl⟩
  | toastError m => exact absurd h (by simp [loopEv])
  | releaseController => exact absurd h (by simp [loopEv])

/-- Helper: a trace of loop-body events contains no event satisfying a
predicate that is false on loop-body events. -/
theorem countEv_zero_of_loop (p : REvent → Bool) (evs : List (ℚ × REvent))
    (hshape : ∀ te ∈ evs, loopEv te.2 = true)
    (hdis : ∀ ev, loopEv ev = true → p ev = false) : countEv p evs = 0 := by
  rw [countEv, List.length_eq_zero, List.filter_eq_nil_iff]
  intro te hte
  simp [hdis te.2 (hshape te hte)]

/-- Helper: `countEv` over a cons. -/
theorem countEv_cons (p : REvent → Bool) (t : ℚ) (ev : REvent) (evs : List (ℚ × REvent)) :
    countEv p ((t, ev) :: evs) = (if p ev then 1 else 0) + countEv p evs := by
  simp only [countEv, List.filter_cons]
  split <;> simp [Nat.add_comm]

/-- Helper: `countEv` over an append. -/
theorem countEv_append (p : REvent → Bool) (a b : List (ℚ × REvent)) :
    countEv p (a ++ b) = countEv p a + countEv p b := by
  simp [countEv, List.filter_append]

/-- Helper: the cleanup block performs each cleanup event exactly once. -/
theorem countEv_finish (stF : LoopState) (ex : LoopExit) :
    countEv isSetAnimFalse (finishEvents stF ex) = 1 ∧
    countEv isSetActiveNone (finishEvents stF ex) = 1 ∧
    countEv isReleaseEv (finishEvents stF ex) = 1 := by
  cases ex <;>
    simp [finishEvents, countEv, List.filter_cons, List.filter_append,
      isSetAnimFalse, isSetActiveNone, isReleaseEv]

/-- C7: every run that starts and terminates performs exactly one
`setIsAnimating(false)`, one `setActiveNodeId(null)` and one release of the
cancellation handle, leaving the store with both flags cleared. -/
theorem c7 (env : RunEnv) (s0 : JointStore) (fuel : ℕ) (ex : LoopExit)
    (h : (runAnimation env s0 fuel).outcome = RunOutcome.ran ex)
    (hex : ex ≠ LoopExit.outOfFuel) :
    countEv isSetAnimFalse (runAnimation env s0 fuel).events = 1 ∧
    countEv isSetActiveNone (runAnimation env s0 fuel).events = 1 ∧
    countEv isReleaseEv (runAnimation env s0 fuel).events = 1 ∧
    (runStore s0 (runAnimation env s0 fuel).events).isAnimating = false ∧
    (runStore s0 (runAnimation env s0 fuel).events).activeNodeId = none := by
  cases hb : s0.isAnimating with
  | true => simp [runAnimation, hb] at h
  | false =>
    cases hsn : startNodes env with
    | nil => simp [runAnimation, hb, hsn] at h
    | cons start rest =>
      by_cases hof : (runLoop env fuel ⟨start.id, none, false, 0, 0⟩).2.2 = LoopExit.outOfFuel
      · simp only [runAnimation, hb, hsn, Bool.false_eq_true, if_false, hof, if_true,
          RunOutcome.ran.injEq] at h
        exact absurd h.symm hex
      · have hshape := runLoop_shape env fuel (⟨start.id, none, false, 0, 0⟩ : LoopState)
        have hzA : countEv isSetAnimFalse (runLoop env fuel ⟨start.id, none, false, 0, 0⟩).1 = 0 :=
          countEv_zero_of_loop _ _ hshape (fun ev hl => (loopEv_cleanup_false ev hl).1)
        have hzN : countEv isSetActiveNone (runLoop env fuel ⟨start.id, none, false, 0, 0⟩).1 = 0 :=
          countEv_zero_of_loop _ _ hshape (fun ev hl => (loopEv_cleanup_false ev hl).2.1)
        have hzR : countEv isReleaseEv (runLoop env fuel ⟨start.id, none, false, 0, 0⟩).1 = 0 :=
          countEv_zero_of_loop _ _ hshape (fun ev hl => (loopEv_cleanup_false ev hl).2.2)
        obtain ⟨hfA, hfN, hfR⟩ := countEv_finish
          (runLoop env fuel ⟨start.id, none, false, 0, 0⟩).2.1
          (runLoop env fuel ⟨start.id, none, false, 0, 0⟩).2.2
        obtain ⟨hsA, hsN⟩ := runStore_finish
          (runStore s0 (((0 : ℚ), REvent.setAnim true) ::
            (runLoop env fuel ⟨start.id, none, false, 0, 0⟩).1))
          (runLoop env fuel ⟨start.id, none, false, 0, 0⟩).2.1
          (runLoop env fuel ⟨start.id, none, false, 0, 0⟩).2.2
        simp only [runAnimation, hb, hsn, Bool.false_eq_true, if_false, if_neg hof]
        refine ⟨?_, ?_, ?_, ?_, ?_⟩
        · rw [show ((0 : ℚ), REvent.setAnim true) ::
                ((runLoop env fuel ⟨start.id, none, false, 0, 0⟩).1 ++
                  finishEvents (runLoop env fuel ⟨start.id, none, false, 0, 0⟩).2.1
                    (runLoop env fuel ⟨start.id, none, false, 0, 0⟩).2.2)
              = (((0 : ℚ), REvent.setAnim true) ::
                  (runLoop env fuel ⟨start.id, none, false, 0, 0⟩).1) ++
                  finishEvents (runLoop env fuel ⟨start.id, none, false, 0, 0⟩).2.1
                    (runLoop env fuel ⟨start.id, none, false, 0, 0⟩).2.2
              from rfl, countEv_append, countEv_cons, hzA, hfA]
          rfl
        · rw [show ((0 : ℚ), REvent.setAnim true) ::
                ((runLoop env fuel ⟨start.id, none, false, 0, 0⟩).1 ++
                  finishEvents (runLoop env fuel ⟨start.id, none, false, 0, 0⟩).2.1
                    (runLoop env fuel ⟨start.id, none, false, 0, 0⟩).2.2)
              = (((0 : ℚ), REvent.setAnim true) ::
                  (runLoop env fuel ⟨start.id, none, false, 0, 0⟩).1) ++
                  finishEvents (runLoop env fuel ⟨start.id, none, false, 0, 0⟩).2.1
                    (runLoop env fuel ⟨start.id, none, false, 0, 0⟩).2.2
              from rfl, countEv_append, countEv_cons, hzN, hfN]
          rfl
        · rw [show ((0 : ℚ), REvent.setAnim true) ::
                ((runLoop env fuel ⟨start.id, none, false, 0, 0⟩).1 ++
                  finishEvents (runLoop env fuel ⟨start.id, none, false, 0, 0⟩).2.1
                    (runLoop env fuel ⟨start.id, none, false, 0, 0⟩).2.2)
              = (((0 : ℚ), REvent.setAnim true) ::
                  (runLoop env fuel ⟨start.id, none, false, 0, 0⟩).1) ++
                  finishEvents (runLoop env fuel ⟨start.id, none, false, 0, 0⟩).2.1
                    (runLoop env fuel ⟨start.id, none, false, 0, 0⟩).2.2
              from rfl, countEv_append, countEv_cons, hzR, hfR]
          rfl
        · rw [show runStore s0 (((0 : ℚ), REvent.setAnim true) ::
                ((runLoop env fuel ⟨start.id, none, false, 0, 0⟩).1 ++
                  finishEvents (runLoop env fuel ⟨start.id, none, false, 0, 0⟩).2.1
                    (runLoop env fuel ⟨start.id, none, false, 0, 0⟩).2.2))
              = runStore (runStore s0 (((0 : ℚ), REvent.setAnim true) ::
                  (runLoop env fuel ⟨start.id, none, false, 0, 0⟩).1))
                  (finishEvents (runLoop env fuel ⟨start.id, none, false, 0, 0⟩).2.1
                    (runLoop env fuel ⟨start.id, none, false, 0, 0⟩).2.2)
              from by simp [runStore, List.foldl_cons, List.foldl_append]]
          exact hsA
        · rw [show runStore s0 (((0 : ℚ), REvent.setAnim true) ::
                ((runLoop env fuel ⟨start.id, none, false, 0, 0⟩).1 ++
                  finishEvents (runLoop env fuel ⟨start.id, none, false, 0, 0⟩).2.1
                    (runLoop env fuel ⟨start.id, none, false, 0, 0⟩).2.2))
              = runStore (runStore s0 (((0 : ℚ), REvent.setAnim true) ::
                  (runLoop env fuel ⟨start.id, none, false, 0, 0⟩).1))
                  (finishEvents (runLoop env fuel ⟨start.id, none, false, 0, 0⟩).2.1
                    (runLoop env fuel ⟨start.id, none, false, 0, 0⟩).2.2)
              from by simp [runStore, List.foldl_cons, List.foldl_append]]
          exact hsN

/-- Witness for C7 on the one-node run ending at the end of the chain. -/
theorem c7_witness :
    countEv isSetAnimFalse (runAnimation c2Env demoStore 5).events = 1 ∧
    countEv isSetActiveNone (runAnimation c2Env demoStore 5).events = 1 ∧
    countEv isReleaseEv (runAnimation c2Env demoStore 5).events = 1 ∧
    (runStore demoStore (runAnimation c2Env demoStore 5).events).isAnimating = false ∧
    (runStore demoStore (runAnimation c2Env demoStore 5).events).activeNodeId = none :=
  c7 c2Env demoStore 5 LoopExit.endOfChain (by decide) (by decide)



/-- Helper: the cleanup block never publishes joint values. -/
theorem finishEvents_no_publish (stF : LoopState) (ex : LoopExit) (t : ℚ) (p : Pose) :
    (t, REvent.publish p) ∉ finishEvents stF ex := by
  cases ex <;> simp [finishEvents]

/-- Helper: every publish of the interpolation loop happens strictly before
the abort request time, because the signal is read in the same synchronous
segment just before each publish. -/
theorem interpFrames_publish_lt (T : ℚ) (P N : Pose) (tot : ℤ) :
    ∀ (count : ℕ) (frame : ℤ) (now t : ℚ) (p : Pose),
      (t, REvent.publish p) ∈ (interpFrames (some T) P N tot frame now count).1 → t < T := by
  intro count
  induction count with
  | zero => intro frame now t p h; simp [interpFrames] at h
  | succ n ih =>
    intro frame now t p h
    rw [interpFrames] at h
    split at h
    · simp at h
    · split at h
      · simp at h
      · rename_i hab
        simp only [List.mem_cons] at h
        rcases h with h | h | h | h
        · simp at h
        · have hnow : ¬ T ≤ now := by simpa [signalAborted] using hab
          injection h with h1 h2
          subst h1
          exact not_le.mp hnow
        · simp at h
        · exact ih _ _ _ _ h

/-- Helper: publishes of the pose branch happen at the loop-top read time. -/
theorem stepJoint_publish_lt (st : LoopState) (js : List JointParameter) (T t : ℚ)
    (p : Pose) (hnow : ¬ T ≤ st.now)
    (h : (t, REvent.publish p) ∈ (stepJoint st js).1) : t < T := by
  rw [stepJoint] at h
  split at h
  · simp only [List.mem_cons, List.not_mem_nil, or_false] at h
    rcases h with h | h
    · injection h with h1 h2
      subst h1
      exact not_le.mp hnow
    · simp at h
  · simp only [List.mem_cons, List.not_mem_nil, or_false] at h
    simp at h

/-- Helper: publishes of the transition branch happen before the abort
request time. -/
theorem stepTransition_publish_lt (env : RunEnv) (st : LoopState)
    (trans : TransitionOptions) (T t : ℚ) (p : Pose) (hT : env.abortTime = some T)
    (h : (t, REvent.publish p) ∈ (stepTransition env st trans).1) : t < T := by
  rw [stepTransition] at h
  split at h
  · rw [hT] at h
    exact interpFrames_publish_lt T _ _ _ _ _ _ _ _ h
  · simp at h

/-- Helper: publishes of a loop body happen before the abort request time. -/
theorem stepBody_publish_lt (env : RunEnv) (st : LoopState) (ns : NodeState)
    (T t : ℚ) (p : Pose) (hT : env.abortTime = some T) (hnow : ¬ T ≤ st.now)
    (h : (t, REvent.publish p) ∈ (stepBody env st ns).1) : t < T := by
  rw [stepBody] at h
  split at h
  · exact stepJoint_publish_lt st _ T t p hnow h
  · split at h
    · exact stepTransition_publish_lt env st _ T t p hT h
    · simp at h

/-- Helper: every publish of the whole run loop happens strictly before the
abort request time. -/
theorem runLoop_publish_lt (env : RunEnv) (T : ℚ) (hT : env.abortTime = some T) :
    ∀ (fuel : ℕ) (st : LoopState) (t : ℚ) (p : Pose),
      (t, REvent.publish p) ∈ (runLoop env fuel st).1 → t < T := by
  intro fuel
  induction fuel with
  | zero => intro st t p h; simp [runLoop] at h
  | succ n ih =>
    intro st t p h
    rw [runLoop] at h
    split at h
    · simp at h
    · split at h
      · simp at h
      · rename_i hab
        split at h
        · simp at h
        · split at h
          · have hnow : ¬ T ≤ st.now := by
              rw [hT] at hab
              simpa [signalAborted] using hab
            simp only [List.mem_cons] at h
            rcases h with h | h | h
            · simp at h
            · simp at h
            · rcases List.mem_append.mp h with h2 | h2
              · exact stepBody_publish_lt env st _ T t p hT hnow h2
              · exact ih _ t p h2
          · simp only [List.mem_cons, List.not_mem_nil, or_false] at h
            rcases h with h | h <;> simp at h

/-- C1 amended: once cancellation is requested at time `T`, no
`setJointValues` publish occurs at or after `T` at all — every publish is
guarded by a signal read in its own synchronous segment. (The pauses
themselves are not abort-aware: see `c1_counterexample`.) -/
theorem c1_amended (env : RunEnv) (s0 : JointStore) (fuel : ℕ) (T : ℚ)
    (hT : env.abortTime = some T) (t : ℚ) (p : Pose)
    (h : (t, REvent.publish p) ∈ (runAnimation env s0 fuel).events) : t < T := by
  cases hb : s0.isAnimating with
  | true => simp [runAnimation, hb] at h
  | false =>
    cases hsn : startNodes env with
    | nil => simp [runAnimation, hb, hsn] at h
    | cons start rest =>
      by_cases hof : (runLoop env fuel ⟨start.id, none, false, 0, 0⟩).2.2 = LoopExit.outOfFuel
      · simp only [runAnimation, hb, hsn, Bool.false_eq_true, if_false, hof, if_true,
          List.mem_cons] at h
        rcases h with h | h
        · simp at h
        · exact runLoop_publish_lt env T hT fuel _ t p h
      · simp only [runAnimation, hb, hsn, Bool.false_eq_true, if_false, if_neg hof,
          List.mem_cons] at h
        rcases h with h | h
        · simp at h
        · rcases List.mem_append.mp h with h2 | h2
          · exact runLoop_publish_lt env T hT fuel _ t p h2
          · exact absurd h2 (finishEvents_no_publish _ _ t p)

set_option maxHeartbeats 1000000 in
/-- Helper: the full effect trace of the cancelled `A → B` run: the pose of
`A` is published at t = 0 and the settle pause runs to completion; the abort
requested at t = 1 is first observed by the loop-top signal read at t = 1000,
where the run exits and cleans up. -/
theorem c1_events : (runAnimation c1Env demoStore 3).events =
    [(0, .setAnim true), (0, .checkSignal false), (0, .setActive (some "A")),
     (0, .publish [("j", 0)]), (0, .sleep 1000), (1000, .checkSignal true),
     (1000, .setAnim false), (1000, .setActive none), (1000, .releaseController)] := by
  have hs1 : signalAborted (some 1) 0 = false := by norm_num [signalAborted]
  have hs2 : signalAborted (some 1) 1000 = true := by norm_num [signalAborted]
  simp +decide [runAnimation, runLoop, stepBody, stepJoint, startNodes, getNodeState,
    nextNodeId, finishEvents, poseOfJoints, fromEntries, setKV, c1Env, demoStore, jsA, jsB,
    hs1, hs2, List.filter_cons, List.find?_cons]

/-- C1 counterexample: cancelling at t = 1 ms, during the 1000 ms settle
pause of the chain `A → B`, the signal is not read anywhere in the window
`[1, 1 + frameTime]` — the next read (and the cleanup `setIsAnimating(false)`)
only happens at t = 1000 ms, when the full pause has elapsed. So the
cancellation signal is not observed at the settle-pause wait point, and
cancellation latency is the full remaining pause, not one frame interval. -/
theorem c1_counterexample :
    ((runAnimation c1Env demoStore 3).events.filter
        (fun te => isCheckEv te.2 && decide ((1 : ℚ) ≤ te.1) &&
          decide (te.1 ≤ 1 + frameTime))) = [] ∧
    ((1000 : ℚ), REvent.setAnim false) ∈ (runAnimation c1Env demoStore 3).events := by
  rw [c1_events]
  constructor
  · norm_num [isCheckEv, frameTime, List.filter_cons]
  · simp

set_option maxHeartbeats 1000000 in
/-- Witness for C1's amended statement: the one publish of the cancelled run
happens at t = 0, before the request at t = 1. -/
theorem c1_witness :
    ((0 : ℚ), REvent.publish [("j", 0)]) ∈ (runAnimation c1Env demoStore 3).events ∧
    (0 : ℚ) < 1 := by
  have h : ((0 : ℚ), REvent.publish [("j", 0)]) ∈ (runAnimation c1Env demoStore 3).events := by
    rw [c1_events]
    simp
  exact ⟨h, c1_amended c1Env demoStore 3 1 rfl 0 [("j", 0)] h⟩


end LeLamp
